import Mathlib

/-!
Verification of the frame-rendering pipeline of the vroom-vroom repository:
viewport sizing, normalized-to-pixel coordinate mapping, agent/food shape
construction, the redraw loop of the controller page, and the stats text
formatting.  JavaScript numbers are modelled as exact reals (for geometry)
or rationals (for viewport arithmetic); engine calls that may throw are
modelled with `Except`; canvas drawing is modelled as the list of 2D-context
commands the code issues.
-/

namespace VroomVroom

/-- An agent as exposed by the external engine: normalized position plus a
facing direction in radians. -/
structure Animal where
  x : ℝ
  y : ℝ
  rotation : ℝ

/-- A food item as exposed by the external engine: normalized position. -/
structure Food where
  x : ℝ
  y : ℝ

/-- The world snapshot returned by the engine accessor. -/
structure World where
  animals : List Animal
  food : List Food

/-- Generation statistics as exposed by the engine.  Only the textual form
of the four fitness numbers is observed by this code (they are interpolated
into a template string), so each field is modelled by the host's decimal
rendering of the underlying float. -/
structure Stats where
  max_fitness : String
  min_fitness : String
  mean_fitness : String
  std_fitness : String

/-- The external engine interface, over an opaque engine-state type and an
error type: every call may throw. -/
structure Sim (σ ε : Type) where
  step : σ → Except ε σ
  world : σ → Except ε World
  generation : σ → Except ε Nat
  generation_steps : σ → Except ε Nat
  prev_generation_statistics : σ → Except ε (Option Stats)

/-- A 2D-context drawing command, as issued by the source code. -/
inductive Cmd where
  | beginPath : Cmd
  | moveTo : ℝ → ℝ → Cmd
  | lineTo : ℝ → ℝ → Cmd
  | arc : ℝ → ℝ → ℝ → ℝ → ℝ → Cmd
  | setFillStyle : String → Cmd
  | fill : Cmd
  | stroke : Cmd

/-- Test for a stroke command. -/
def isStrokeCmd : Cmd → Bool
  | Cmd.stroke => true
  | _ => false

/-- Test for a fill command. -/
def isFillCmd : Cmd → Bool
  | Cmd.fill => true
  | _ => false

/-- The fill styles set by a command list, in order. -/
def fillStyleCmds (cmds : List Cmd) : List String :=
  cmds.filterMap fun c =>
    match c with
    | Cmd.setFillStyle s => some s
    | _ => none

/-- Painting semantics of one batch of path commands on a canvas, for an
arbitrary host rasterizer: `rasterize` decides which points the batch
covers and `colorOf` which color it fills with; covered points are
overwritten, all others keep their previous color. -/
def paintCmds (rasterize : List Cmd → (ℝ × ℝ → Bool)) (colorOf : List Cmd → String)
    (canvas : ℝ × ℝ → Option String) (cmds : List Cmd) : ℝ × ℝ → Option String :=
  fun p => if rasterize cmds p then some (colorOf cmds) else canvas p

namespace SimulationView

/-- ANIMAL_SIZE constant of simulation.js. -/
noncomputable def ANIMAL_SIZE : ℝ := 0.01

/-- ANIMAL_COLOR constant of simulation.js. -/
def ANIMAL_COLOR : String := "#758b9e"

/-- FOOD_SIZE constant of simulation.js. -/
noncomputable def FOOD_SIZE : ℝ := 0.003

/-- FOOD_COLOR constant of simulation.js. -/
def FOOD_COLOR : String := "#b4a794"

/-- SimulationView.fillAnimal of simulation.js: the commands issued on the
2D context for one agent, given the canvas backing-store width and the
pixel position and rotation arguments. -/
noncomputable def fillAnimal (elWidth x y rotation : ℝ) : List Cmd :=
  let size := ANIMAL_SIZE * elWidth
  let headAngle := rotation
  let leg1Angle := rotation + 14 * Real.pi / 18
  let leg2Angle := rotation - 14 * Real.pi / 18
  [ Cmd.beginPath,
    Cmd.moveTo (x + Real.cos headAngle * size) (y + Real.sin headAngle * size),
    Cmd.lineTo (x + Real.cos leg1Angle * size) (y + Real.sin leg1Angle * size),
    Cmd.lineTo (x + Real.cos leg2Angle * size) (y + Real.sin leg2Angle * size),
    Cmd.moveTo (x + Real.cos headAngle * size) (y + Real.sin headAngle * size),
    Cmd.setFillStyle ANIMAL_COLOR,
    Cmd.fill ]

/-- SimulationView.fillFood of simulation.js: the commands issued on the
2D context for one food item. -/
noncomputable def fillFood (elWidth x y : ℝ) : List Cmd :=
  let size := FOOD_SIZE * elWidth
  [ Cmd.beginPath,
    Cmd.arc x y size 0 (2 * Real.pi),
    Cmd.setFillStyle FOOD_COLOR,
    Cmd.fill ]

/-- SimulationView.drawAnimals of simulation.js: one fillAnimal call per
animal, at pixel position (x * width, y * height). -/
noncomputable def drawAnimals (elWidth elHeight : ℝ) (animals : List Animal) :
    List (List Cmd) :=
  animals.map fun animal =>
    fillAnimal elWidth (animal.x * elWidth) (animal.y * elHeight) animal.rotation

/-- SimulationView.drawFood of simulation.js: one fillFood call per food
item, at pixel position (x * width, y * height). -/
noncomputable def drawFood (elWidth elHeight : ℝ) (food : List Food) :
    List (List Cmd) :=
  food.map fun f =>
    fillFood elWidth (f.x * elWidth) (f.y * elHeight)

end SimulationView

namespace WasmApp

/-- ANIMAL_SIZE constant of wasm_app/index.js. -/
noncomputable def ANIMAL_SIZE : ℝ := 0.015

/-- ANIMAL_COLOR constant of wasm_app/index.js. -/
def ANIMAL_COLOR : String := "gray"

/-- FOOD_SIZE constant of wasm_app/index.js. -/
noncomputable def FOOD_SIZE : ℝ := 0.005

/-- FOOD_COLOR constant of wasm_app/index.js. -/
def FOOD_COLOR : String := "green"

/-- fillAnimal of wasm_app/index.js, given the viewport backing-store width
and the pixel position and rotation arguments. -/
noncomputable def fillAnimal (viewportWidth x y rotation : ℝ) : List Cmd :=
  let size := ANIMAL_SIZE * viewportWidth
  let headAngle := rotation
  let leg1Angle := rotation + 14 * Real.pi / 18
  let leg2Angle := rotation - 14 * Real.pi / 18
  [ Cmd.beginPath,
    Cmd.moveTo (x + Real.cos headAngle * size) (y + Real.sin headAngle * size),
    Cmd.lineTo (x + Real.cos leg1Angle * size) (y + Real.sin leg1Angle * size),
    Cmd.lineTo (x + Real.cos leg2Angle * size) (y + Real.sin leg2Angle * size),
    Cmd.moveTo (x + Real.cos headAngle * size) (y + Real.sin headAngle * size),
    Cmd.setFillStyle ANIMAL_COLOR,
    Cmd.fill ]

/-- fillFood of wasm_app/index.js. -/
noncomputable def fillFood (viewportWidth x y : ℝ) : List Cmd :=
  let size := FOOD_SIZE * viewportWidth
  [ Cmd.beginPath,
    Cmd.arc x y size 0 (2 * Real.pi),
    Cmd.setFillStyle FOOD_COLOR,
    Cmd.fill ]

/-- draw_animals of wasm_app/index.js, at the command level: one fillAnimal
call per animal of the given world snapshot, at (x * width, y * height). -/
noncomputable def draw_animals (viewportWidth viewportHeight : ℝ)
    (animals : List Animal) : List (List Cmd) :=
  animals.map fun animal =>
    fillAnimal viewportWidth (animal.x * viewportWidth)
      (animal.y * viewportHeight) animal.rotation

/-- draw_food of wasm_app/index.js, at the command level. -/
noncomputable def draw_food (viewportWidth viewportHeight : ℝ)
    (food : List Food) : List (List Cmd) :=
  food.map fun f =>
    fillFood viewportWidth (f.x * viewportWidth) (f.y * viewportHeight)

end WasmApp

/-- Follows the spec text for CoordinateMapper.toPixel, letter for letter,
to be compared against the inline mapping of the source draw functions:
pixelX = normalizedX * widthPx, pixelY = normalizedY * heightPx. -/
noncomputable def toPixelSpec (x y widthPx heightPx : ℝ) : ℝ × ℝ :=
  (x * widthPx, y * heightPx)

/-- Host window quantities read by SimulationView.reset: the device pixel
ratio (absent when the host does not provide one) and the window inner
dimensions.  JavaScript numbers are modelled as exact rationals here since
only linear arithmetic is performed on them. -/
structure HostEnv where
  devicePixelRatio : Option ℚ
  innerWidth : ℚ
  innerHeight : ℚ

/-- The JavaScript expression `v || dflt`: the default is taken when the
value is absent or zero (both are falsy). -/
def jsOr (v : Option ℚ) (dflt : ℚ) : ℚ :=
  match v with
  | none => dflt
  | some r => if r = 0 then dflt else r

/-- The canvas element state written by SimulationView.reset: backing-store
dimensions, displayed (CSS) size in px, and the rectangle passed to
clearRect. -/
structure ElState where
  width : ℚ
  height : ℚ
  styleWidthPx : ℚ
  styleHeightPx : ℚ
  clearedRect : ℚ × ℚ × ℚ × ℚ

namespace SimulationView

/-- SimulationView.reset of simulation.js: picks the pixel ratio, derives
the logical size as min(innerWidth - 500, innerHeight - 50), sets the
backing store to size * pixelRatio on both axes and the CSS size to the
logical size, then clears with clearRect(0, 0, el.width, el.width) — the
source passes el.width for both extents, whose value at that point is
size * pixelRatio. -/
def reset (env : HostEnv) : ElState :=
  let pixelRatio := jsOr env.devicePixelRatio 1
  let size := min (env.innerWidth - 500) (env.innerHeight - 50)
  { width := size * pixelRatio
    height := size * pixelRatio
    styleWidthPx := size
    styleHeightPx := size
    clearedRect := (0, 0, size * pixelRatio, size * pixelRatio) }

end SimulationView

namespace MainApp

/-- JavaScript template interpolation of a nullable value: null renders as
the word "null", a present value renders as itself. -/
def jsStr (v : Option String) : String :=
  match v with
  | none => "null"
  | some s => s

/-- The stats text built by redraw in the controller page: the four fitness
locals start as null and are filled from the stats object when it is
present, then the template string is assembled line by line. -/
def formatText (generation generation_steps : Nat) (stats : Option Stats) : String :=
  let max_fitness := stats.map Stats.max_fitness
  let min_fitness := stats.map Stats.min_fitness
  let mean_fitness := stats.map Stats.mean_fitness
  let std_fitness := stats.map Stats.std_fitness
  "Generation: " ++ toString generation ++ "\n" ++
  "Generation steps: " ++ toString generation_steps ++ "\n\n" ++
  "Prev generation stats:\n" ++
  "Max fitness: " ++ jsStr max_fitness ++ "\n" ++
  "Min fitness: " ++ jsStr min_fitness ++ "\n" ++
  "Mean fitness: " ++ jsStr mean_fitness ++ "\n" ++
  "Std fitness: " ++ jsStr std_fitness ++ "\n"

/-- Global replacement of the newline character by a br tag, character by
character: the model of the JavaScript regex replace of newlines, whose
pattern is the single newline character. -/
def nlToBrAux : List Char → List Char
  | [] => []
  | c :: cs =>
    if c = '\n' then '<' :: 'b' :: 'r' :: '>' :: nlToBrAux cs
    else c :: nlToBrAux cs

/-- setControllerText of the controller page: the element's innerHTML is
assigned the text with every newline replaced by a br tag; the previous
content plays no role in the result. -/
def setControllerText (_prevContent text : String) : String :=
  (nlToBrAux text.data).asString

end MainApp

/-- Observable events of one frame cycle, in the order the source code
performs them. -/
inductive Ev where
  | reset : Ev
  | clear : Ev
  | step : Ev
  | queryStats : Ev
  | queryWorld : Ev
  | drawAnimal : Animal → Ev
  | drawFood : Food → Ev
  | schedule : Ev
  | queryGeneration : Ev
  | queryGenerationSteps : Ev
  | present : String → Ev

/-- A computation that emits events and either returns a value or stops at
the first thrown engine error, keeping the events emitted up to it. -/
abbrev EvM (ε α : Type) : Type := List Ev × Except ε α

/-- Sequencing of event-emitting computations: on an error the remainder
never runs and emits nothing. -/
def bindEv {ε α β : Type} (x : EvM ε α) (f : α → EvM ε β) : EvM ε β :=
  match x with
  | (t, Except.error e) => (t, Except.error e)
  | (t, Except.ok a) =>
    let y := f a
    (t ++ y.1, y.2)

/-- Emit events and succeed. -/
def emit {ε : Type} (evs : List Ev) : EvM ε Unit := (evs, Except.ok ())

/-- An engine call: records its event, then yields the call's outcome. -/
def call {ε α : Type} (ev : Ev) (x : Except ε α) : EvM ε α := ([ev], x)

/-- The for-loop of the controller redraw, `for (let i = 0; i < 1; i++)
simulation.step()`, generalized to its bound: n sequential step calls. -/
def stepLoop {σ ε : Type} (sim : Sim σ ε) : Nat → σ → EvM ε σ
  | 0, s => ([], Except.ok s)
  | n + 1, s =>
    bindEv (call Ev.step (sim.step s)) fun s1 => stepLoop sim n s1

namespace MainApp

/-- One cycle of redraw in the controller page, as the sequence of
observable actions of the source: reset the view, run the step loop once,
query prev_generation_statistics, query world and draw each animal, query
world again and draw each food item, request the next animation frame, and
only then query generation and generation_steps, build the stats text and
write it to the controller element. -/
def redraw {σ ε : Type} (sim : Sim σ ε) (s : σ) : EvM ε σ :=
  bindEv (emit [Ev.reset]) fun _ =>
  bindEv (stepLoop sim 1 s) fun s1 =>
  bindEv (call Ev.queryStats (sim.prev_generation_statistics s1)) fun stats =>
  bindEv (call Ev.queryWorld (sim.world s1)) fun w1 =>
  bindEv (emit (w1.animals.map Ev.drawAnimal)) fun _ =>
  bindEv (call Ev.queryWorld (sim.world s1)) fun w2 =>
  bindEv (emit (w2.food.map Ev.drawFood)) fun _ =>
  bindEv (emit [Ev.schedule]) fun _ =>
  bindEv (call Ev.queryGeneration (sim.generation s1)) fun g =>
  bindEv (call Ev.queryGenerationSteps (sim.generation_steps s1)) fun gs =>
  bindEv (emit [Ev.present (formatText g gs stats)]) fun _ =>
  (([] : List Ev), Except.ok s1)

end MainApp

namespace WasmApp

/-- draw_animals of wasm_app/index.js at the event level: query world, then
draw each animal of the snapshot. -/
def drawAnimalsEv {σ ε : Type} (sim : Sim σ ε) (s : σ) : EvM ε Unit :=
  bindEv (call Ev.queryWorld (sim.world s)) fun w =>
  emit (w.animals.map Ev.drawAnimal)

/-- draw_food of wasm_app/index.js at the event level. -/
def drawFoodEv {σ ε : Type} (sim : Sim σ ε) (s : σ) : EvM ε Unit :=
  bindEv (call Ev.queryWorld (sim.world s)) fun w =>
  emit (w.food.map Ev.drawFood)

/-- One cycle of redraw in wasm_app/index.js: clear the viewport, one step
call, draw animals, draw food, request the next animation frame. -/
def redraw {σ ε : Type} (sim : Sim σ ε) (s : σ) : EvM ε σ :=
  bindEv (emit [Ev.clear]) fun _ =>
  bindEv (call Ev.step (sim.step s)) fun s1 =>
  bindEv (drawAnimalsEv sim s1) fun _ =>
  bindEv (drawFoodEv sim s1) fun _ =>
  bindEv (emit [Ev.schedule]) fun _ =>
  (([] : List Ev), Except.ok s1)

/-- The wasm_app startup sequence: draw_animals and draw_food on the fresh
simulation, then the first redraw call. -/
def startup {σ ε : Type} (sim : Sim σ ε) (s0 : σ) : EvM ε σ :=
  bindEv (drawAnimalsEv sim s0) fun _ =>
  bindEv (drawFoodEv sim s0) fun _ =>
  redraw sim s0

end WasmApp

/-- Splitting of a character list at newline characters, keeping empty
segments, accumulator-style. -/
def splitNl : List Char → List Char → List (List Char)
  | [], acc => [acc.reverse]
  | c :: cs, acc =>
    if c = '\n' then acc.reverse :: splitNl cs []
    else splitNl cs (c :: acc)

/-- The lines of a text: the segments between newline characters, with a
trailing empty line when the text ends in a newline. -/
def linesOf (s : String) : List String :=
  (splitNl s.data []).map List.asString

/-- Test for the step event. -/
def isStepEv : Ev → Bool
  | Ev.step => true
  | _ => false

/-- Test for the viewport-reset event. -/
def isResetEv : Ev → Bool
  | Ev.reset => true
  | _ => false

/-- Test for the clear event. -/
def isClearEv : Ev → Bool
  | Ev.clear => true
  | _ => false

/-- Test for the animation-frame scheduling event. -/
def isScheduleEv : Ev → Bool
  | Ev.schedule => true
  | _ => false

/-- Test for the stats-presentation event. -/
def isPresentEv : Ev → Bool
  | Ev.present _ => true
  | _ => false

/-- Test for an agent draw event. -/
def isDrawAnimalEv : Ev → Bool
  | Ev.drawAnimal _ => true
  | _ => false

/-- Test for a food draw event. -/
def isDrawFoodEv : Ev → Bool
  | Ev.drawFood _ => true
  | _ => false

/-- A stub engine whose calls all succeed, with an empty world. -/
def okSim : Sim Unit String where
  step := fun _ => Except.ok ()
  world := fun _ => Except.ok { animals := [], food := [] }
  generation := fun _ => Except.ok 0
  generation_steps := fun _ => Except.ok 0
  prev_generation_statistics := fun _ => Except.ok none

/-- A sample agent. -/
noncomputable def demoAnimal : Animal := { x := 1, y := 0, rotation := 0 }

/-- A sample food item. -/
noncomputable def demoFood : Food := { x := 0, y := 1 }

/-- A stub engine whose calls all succeed, with one animal and two food
items in the world. -/
noncomputable def demoSim : Sim Unit String where
  step := fun _ => Except.ok ()
  world := fun _ => Except.ok { animals := [demoAnimal], food := [demoFood, demoFood] }
  generation := fun _ => Except.ok 3
  generation_steps := fun _ => Except.ok 40
  prev_generation_statistics := fun _ => Except.ok none

/-- A stub engine whose step call throws. -/
def stepFailSim : Sim Unit String where
  step := fun _ => Except.error ("engine failure")
  world := fun _ => Except.ok { animals := [], food := [] }
  generation := fun _ => Except.ok 0
  generation_steps := fun _ => Except.ok 0
  prev_generation_statistics := fun _ => Except.ok none

/-- A stub engine whose generation accessor throws while every other call
succeeds. -/
def genFailSim : Sim Unit String where
  step := fun _ => Except.ok ()
  world := fun _ => Except.ok { animals := [], food := [] }
  generation := fun _ => Except.error ("engine failure")
  generation_steps := fun _ => Except.ok 0
  prev_generation_statistics := fun _ => Except.ok none

/-! Helper lemmas -/

/-- Sequencing after a successful computation appends its events. -/
theorem bindEv_ok {ε α β : Type} (t : List Ev) (a : α) (f : α → EvM ε β) :
    bindEv (t, Except.ok a) f = (t ++ (f a).1, (f a).2) := rfl

/-- Sequencing after a failed computation stops there. -/
theorem bindEv_error {ε α β : Type} (t : List Ev) (e : ε) (f : α → EvM ε β) :
    bindEv (t, Except.error e) f = (t, Except.error e) := rfl

/-- The controller's step loop with bound one performs exactly one step
call. -/
theorem stepLoop_one {σ ε : Type} (sim : Sim σ ε) (s : σ) :
    stepLoop sim 1 s = ([Ev.step], sim.step s) := by
  cases h : sim.step s <;> simp [stepLoop, call, bindEv, h]

/-- A vertex placed at angle θ and distance s from a center lies at squared
distance s^2 from it. -/
theorem vertex_radius_sq (cx cy θ s : ℝ) :
    (cx + Real.cos θ * s - cx) ^ 2 + (cy + Real.sin θ * s - cy) ^ 2 = s ^ 2 := by
  have h := Real.sin_sq_add_cos_sq θ
  calc (cx + Real.cos θ * s - cx) ^ 2 + (cy + Real.sin θ * s - cy) ^ 2
      = (Real.sin θ ^ 2 + Real.cos θ ^ 2) * s ^ 2 := by ring
    _ = s ^ 2 := by rw [h]; ring

/-- The source's leg-angle offset (14 π) / 18 is exactly 7π/9. -/
theorem leg_angle_value : (14 : ℝ) * Real.pi / 18 = 7 * Real.pi / 9 := by ring

/-- The controller redraw cycle on an engine whose calls all succeed: the
full ordered event trace. -/
theorem MainApp_redraw_ok {σ ε : Type} (sim : Sim σ ε) (s s1 : σ)
    (st : Option Stats) (w : World) (g gs : Nat)
    (hstep : sim.step s = Except.ok s1)
    (hstat : sim.prev_generation_statistics s1 = Except.ok st)
    (hw : sim.world s1 = Except.ok w)
    (hg : sim.generation s1 = Except.ok g)
    (hgs : sim.generation_steps s1 = Except.ok gs) :
    MainApp.redraw sim s
      = ([Ev.reset, Ev.step, Ev.queryStats, Ev.queryWorld]
          ++ w.animals.map Ev.drawAnimal
          ++ [Ev.queryWorld] ++ w.food.map Ev.drawFood
          ++ [Ev.schedule, Ev.queryGeneration, Ev.queryGenerationSteps,
              Ev.present (MainApp.formatText g gs st)],
         Except.ok s1) := by
  simp [MainApp.redraw, stepLoop_one, hstep, hstat, hw, hg, hgs,
    bindEv, emit, call]

/-- The wasm_app redraw cycle on an engine whose calls all succeed: the
full ordered event trace. -/
theorem WasmApp_redraw_ok {σ ε : Type} (sim : Sim σ ε) (s s1 : σ) (w : World)
    (hstep : sim.step s = Except.ok s1)
    (hw : sim.world s1 = Except.ok w) :
    WasmApp.redraw sim s
      = ([Ev.clear, Ev.step, Ev.queryWorld]
          ++ w.animals.map Ev.drawAnimal
          ++ [Ev.queryWorld] ++ w.food.map Ev.drawFood ++ [Ev.schedule],
         Except.ok s1) := by
  simp [WasmApp.redraw, WasmApp.drawAnimalsEv, WasmApp.drawFoodEv,
    hstep, hw, bindEv, emit, call]

/-! Claim theorems -/

/-- C1: for every normalized coordinate pair and every viewport, the
coordinate mapping used for both agents and food — in the controller view
and in the wasm_app variant alike — is exactly (x*w, y*h), applied to every
input unclamped and unrounded. -/
theorem claim_C1 :
    (∀ (w h x y : ℝ), toPixelSpec x y w h = (x * w, y * h))
    ∧ (∀ (w h : ℝ) (animals : List Animal),
        SimulationView.drawAnimals w h animals
          = animals.map fun a =>
              SimulationView.fillAnimal w (toPixelSpec a.x a.y w h).1
                (toPixelSpec a.x a.y w h).2 a.rotation)
    ∧ (∀ (w h : ℝ) (food : List Food),
        SimulationView.drawFood w h food
          = food.map fun f =>
              SimulationView.fillFood w (toPixelSpec f.x f.y w h).1
                (toPixelSpec f.x f.y w h).2)
    ∧ (∀ (w h : ℝ) (animals : List Animal),
        WasmApp.draw_animals w h animals
          = animals.map fun a =>
              WasmApp.fillAnimal w (toPixelSpec a.x a.y w h).1
                (toPixelSpec a.x a.y w h).2 a.rotation)
    ∧ (∀ (w h : ℝ) (food : List Food),
        WasmApp.draw_food w h food
          = food.map fun f =>
              WasmApp.fillFood w (toPixelSpec f.x f.y w h).1
                (toPixelSpec f.x f.y w h).2) :=
  ⟨fun _ _ _ _ => rfl, fun _ _ _ => rfl, fun _ _ _ => rfl,
   fun _ _ _ => rfl, fun _ _ _ => rfl⟩

/-- C2: drawing an agent centered at (cx, cy) with rotation r on a viewport
of backing width w places the head vertex at (cx + cos r * size,
cy + sin r * size) and the leg vertices at angles r + 7π/9 and r − 7π/9,
all at radius size = ANIMAL_SIZE * w; at r = 0 the head is at
(cx + size, cy); and repainting with identical inputs leaves the canvas
unchanged for every host rasterizer. -/
theorem claim_C2 (w cx cy r : ℝ) :
    (SimulationView.fillAnimal w cx cy r
       = [ Cmd.beginPath,
           Cmd.moveTo (cx + Real.cos r * (SimulationView.ANIMAL_SIZE * w))
             (cy + Real.sin r * (SimulationView.ANIMAL_SIZE * w)),
           Cmd.lineTo
             (cx + Real.cos (r + 7 * Real.pi / 9) * (SimulationView.ANIMAL_SIZE * w))
             (cy + Real.sin (r + 7 * Real.pi / 9) * (SimulationView.ANIMAL_SIZE * w)),
           Cmd.lineTo
             (cx + Real.cos (r - 7 * Real.pi / 9) * (SimulationView.ANIMAL_SIZE * w))
             (cy + Real.sin (r - 7 * Real.pi / 9) * (SimulationView.ANIMAL_SIZE * w)),
           Cmd.moveTo (cx + Real.cos r * (SimulationView.ANIMAL_SIZE * w))
             (cy + Real.sin r * (SimulationView.ANIMAL_SIZE * w)),
           Cmd.setFillStyle SimulationView.ANIMAL_COLOR,
           Cmd.fill ])
    ∧ (WasmApp.fillAnimal w cx cy r
       = [ Cmd.beginPath,
           Cmd.moveTo (cx + Real.cos r * (WasmApp.ANIMAL_SIZE * w))
             (cy + Real.sin r * (WasmApp.ANIMAL_SIZE * w)),
           Cmd.lineTo
             (cx + Real.cos (r + 7 * Real.pi / 9) * (WasmApp.ANIMAL_SIZE * w))
             (cy + Real.sin (r + 7 * Real.pi / 9) * (WasmApp.ANIMAL_SIZE * w)),
           Cmd.lineTo
             (cx + Real.cos (r - 7 * Real.pi / 9) * (WasmApp.ANIMAL_SIZE * w))
             (cy + Real.sin (r - 7 * Real.pi / 9) * (WasmApp.ANIMAL_SIZE * w)),
           Cmd.moveTo (cx + Real.cos r * (WasmApp.ANIMAL_SIZE * w))
             (cy + Real.sin r * (WasmApp.ANIMAL_SIZE * w)),
           Cmd.setFillStyle WasmApp.ANIMAL_COLOR,
           Cmd.fill ])
    ∧ ((SimulationView.fillAnimal w cx cy 0).get? 1
         = some (Cmd.moveTo (cx + SimulationView.ANIMAL_SIZE * w) cy))
    ∧ ((WasmApp.fillAnimal w cx cy 0).get? 1
         = some (Cmd.moveTo (cx + WasmApp.ANIMAL_SIZE * w) cy))
    ∧ (∀ θ : ℝ,
        (cx + Real.cos θ * (SimulationView.ANIMAL_SIZE * w) - cx) ^ 2
          + (cy + Real.sin θ * (SimulationView.ANIMAL_SIZE * w) - cy) ^ 2
          = (SimulationView.ANIMAL_SIZE * w) ^ 2)
    ∧ (∀ (rasterize : List Cmd → (ℝ × ℝ → Bool)) (colorOf : List Cmd → String)
        (canvas : ℝ × ℝ → Option String),
        paintCmds rasterize colorOf
            (paintCmds rasterize colorOf canvas (SimulationView.fillAnimal w cx cy r))
            (SimulationView.fillAnimal w cx cy r)
          = paintCmds rasterize colorOf canvas (SimulationView.fillAnimal w cx cy r)) := by
  refine ⟨?_, ?_, ?_, ?_, fun θ => vertex_radius_sq cx cy θ _, ?_⟩
  · simp only [SimulationView.fillAnimal]
    rw [leg_angle_value]
  · simp only [WasmApp.fillAnimal]
    rw [leg_angle_value]
  · simp [SimulationView.fillAnimal]
  · simp [WasmApp.fillAnimal]
  · intro rasterize colorOf canvas
    funext p
    cases hp : rasterize (SimulationView.fillAnimal w cx cy r) p <;>
      simp [paintCmds, hp]

/-- C3: the agent path visits head, then leg1, then leg2, then returns to
the head vertex; the shape is filled exactly once and never stroked, and
the fill color is the fixed agent color, independent of the agent drawn, in
both source variants. -/
theorem claim_C3 (w x y r : ℝ) :
    (∃ head leg1 leg2 : ℝ × ℝ,
        SimulationView.fillAnimal w x y r
          = [ Cmd.beginPath, Cmd.moveTo head.1 head.2, Cmd.lineTo leg1.1 leg1.2,
              Cmd.lineTo leg2.1 leg2.2, Cmd.moveTo head.1 head.2,
              Cmd.setFillStyle SimulationView.ANIMAL_COLOR, Cmd.fill ])
    ∧ (SimulationView.fillAnimal w x y r).countP isFillCmd = 1
    ∧ (SimulationView.fillAnimal w x y r).countP isStrokeCmd = 0
    ∧ fillStyleCmds (SimulationView.fillAnimal w x y r) = [SimulationView.ANIMAL_COLOR]
    ∧ (∃ head leg1 leg2 : ℝ × ℝ,
        WasmApp.fillAnimal w x y r
          = [ Cmd.beginPath, Cmd.moveTo head.1 head.2, Cmd.lineTo leg1.1 leg1.2,
              Cmd.lineTo leg2.1 leg2.2, Cmd.moveTo head.1 head.2,
              Cmd.setFillStyle WasmApp.ANIMAL_COLOR, Cmd.fill ])
    ∧ (WasmApp.fillAnimal w x y r).countP isFillCmd = 1
    ∧ (WasmApp.fillAnimal w x y r).countP isStrokeCmd = 0
    ∧ fillStyleCmds (WasmApp.fillAnimal w x y r) = [WasmApp.ANIMAL_COLOR] := by
  refine ⟨⟨(x + Real.cos r * (SimulationView.ANIMAL_SIZE * w),
            y + Real.sin r * (SimulationView.ANIMAL_SIZE * w)),
           (x + Real.cos (r + 14 * Real.pi / 18) * (SimulationView.ANIMAL_SIZE * w),
            y + Real.sin (r + 14 * Real.pi / 18) * (SimulationView.ANIMAL_SIZE * w)),
           (x + Real.cos (r - 14 * Real.pi / 18) * (SimulationView.ANIMAL_SIZE * w),
            y + Real.sin (r - 14 * Real.pi / 18) * (SimulationView.ANIMAL_SIZE * w)),
           rfl⟩,
         ?_, ?_, ?_,
         ⟨(x + Real.cos r * (WasmApp.ANIMAL_SIZE * w),
           y + Real.sin r * (WasmApp.ANIMAL_SIZE * w)),
          (x + Real.cos (r + 14 * Real.pi / 18) * (WasmApp.ANIMAL_SIZE * w),
           y + Real.sin (r + 14 * Real.pi / 18) * (WasmApp.ANIMAL_SIZE * w)),
          (x + Real.cos (r - 14 * Real.pi / 18) * (WasmApp.ANIMAL_SIZE * w),
           y + Real.sin (r - 14 * Real.pi / 18) * (WasmApp.ANIMAL_SIZE * w)),
          rfl⟩,
         ?_, ?_, ?_⟩ <;>
    simp [SimulationView.fillAnimal, WasmApp.fillAnimal, fillStyleCmds,
      List.countP_cons, isFillCmd, isStrokeCmd]

/-- C7: formatting with stats = null yields four fitness lines each showing
the word "null" rather than being suppressed, plus generation and
generation-steps lines with the literal integers passed in; with stats
present the lines appear in the order Generation, Generation steps, then
Max/Min/Mean/Std fitness with the respective values; and the controller
text surface receives the text with newlines converted to br tags,
independent of its previous content. -/
theorem claim_C7 :
    (∀ generation generation_steps : Nat,
        MainApp.formatText generation generation_steps none
          = "Generation: " ++ toString generation ++ "\n" ++
            "Generation steps: " ++ toString generation_steps ++ "\n\n" ++
            "Prev generation stats:\n" ++
            "Max fitness: " ++ "null" ++ "\n" ++
            "Min fitness: " ++ "null" ++ "\n" ++
            "Mean fitness: " ++ "null" ++ "\n" ++
            "Std fitness: " ++ "null" ++ "\n")
    ∧ (linesOf (MainApp.formatText 7 12 none)
        = ["Generation: 7", "Generation steps: 12", "", "Prev generation stats:",
           "Max fitness: null", "Min fitness: null", "Mean fitness: null",
           "Std fitness: null", ""])
    ∧ (linesOf (MainApp.formatText 3 40
          (some { max_fitness := "1", min_fitness := "0.2",
                  mean_fitness := "0.5", std_fitness := "0.1" }))
        = ["Generation: 3", "Generation steps: 40", "", "Prev generation stats:",
           "Max fitness: 1", "Min fitness: 0.2", "Mean fitness: 0.5",
           "Std fitness: 0.1", ""])
    ∧ (∀ p1 p2 text, MainApp.setControllerText p1 text = MainApp.setControllerText p2 text)
    ∧ (MainApp.setControllerText "" (MainApp.formatText 3 40
          (some { max_fitness := "1", min_fitness := "0.2",
                  mean_fitness := "0.5", std_fitness := "0.1" }))
        = "Generation: 3<br>Generation steps: 40<br><br>Prev generation stats:" ++
          "<br>Max fitness: 1<br>Min fitness: 0.2<br>Mean fitness: 0.5" ++
          "<br>Std fitness: 0.1<br>") :=
  ⟨fun _ _ => rfl, by decide, by decide, fun _ _ _ => rfl, by decide⟩

/-- C8: resetting the view with device pixel ratio 2 and derived logical
size 400 sets the backing store to 800 by 800 and the CSS size to 400px by
400px; in general the backing dimensions are logical size times pixel ratio
and the clear covers the whole backing-store area. -/
theorem claim_C8 (env : HostEnv)
    (hpr : env.devicePixelRatio = some 2)
    (hsz : min (env.innerWidth - 500) (env.innerHeight - 50) = 400) :
    (SimulationView.reset env).width = 800
    ∧ (SimulationView.reset env).height = 800
    ∧ (SimulationView.reset env).styleWidthPx = 400
    ∧ (SimulationView.reset env).styleHeightPx = 400
    ∧ (SimulationView.reset env).clearedRect
        = (0, 0, (SimulationView.reset env).width, (SimulationView.reset env).height)
    ∧ (∀ env' : HostEnv,
        (SimulationView.reset env').width
          = min (env'.innerWidth - 500) (env'.innerHeight - 50)
              * jsOr env'.devicePixelRatio 1
        ∧ (SimulationView.reset env').height
          = min (env'.innerWidth - 500) (env'.innerHeight - 50)
              * jsOr env'.devicePixelRatio 1
        ∧ (SimulationView.reset env').styleWidthPx
          = min (env'.innerWidth - 500) (env'.innerHeight - 50)
        ∧ (SimulationView.reset env').clearedRect
          = (0, 0, (SimulationView.reset env').width,
              (SimulationView.reset env').height)) := by
  have hjs : jsOr env.devicePixelRatio 1 = 2 := by
    rw [hpr]; simp [jsOr]
  refine ⟨?_, ?_, ?_, ?_, rfl, fun env' => ⟨rfl, rfl, rfl, rfl⟩⟩ <;>
    simp [SimulationView.reset, hjs, hsz] <;> norm_num

/-- A host environment giving pixel ratio 2 and logical size 400. -/
def demoEnv : HostEnv :=
  { devicePixelRatio := some 2, innerWidth := 900, innerHeight := 450 }

/-- C8 witness: the theorem applied to a concrete host environment with
pixel ratio 2 and window 900 by 450, whose derived logical size is 400. -/
theorem claim_C8_witness :
    demoEnv.devicePixelRatio = some 2
    ∧ min (demoEnv.innerWidth - 500) (demoEnv.innerHeight - 50) = 400
    ∧ (SimulationView.reset demoEnv).width = 800
    ∧ (SimulationView.reset demoEnv).height = 800
    ∧ (SimulationView.reset demoEnv).styleWidthPx = 400
    ∧ (SimulationView.reset demoEnv).styleHeightPx = 400
    ∧ (SimulationView.reset demoEnv).clearedRect
        = (0, 0, (SimulationView.reset demoEnv).width,
            (SimulationView.reset demoEnv).height) := by
  have hsz : min (demoEnv.innerWidth - 500) (demoEnv.innerHeight - 50) = 400 := by
    norm_num [demoEnv, min_self]
  have h := claim_C8 demoEnv rfl hsz
  exact ⟨rfl, hsz, h.1, h.2.1, h.2.2.1, h.2.2.2.1, h.2.2.2.2.1⟩

/-- C9: drawing a food item issues a fresh path with a single full arc of
radius FOOD_SIZE * viewport width, swept from 0 to 2π, centered exactly at
the given point, filled with the fixed food color and never stroked, in
both source variants. -/
theorem claim_C9 (w x y : ℝ) :
    SimulationView.fillFood w x y
      = [ Cmd.beginPath,
          Cmd.arc x y (SimulationView.FOOD_SIZE * w) 0 (2 * Real.pi),
          Cmd.setFillStyle SimulationView.FOOD_COLOR, Cmd.fill ]
    ∧ WasmApp.fillFood w x y
      = [ Cmd.beginPath,
          Cmd.arc x y (WasmApp.FOOD_SIZE * w) 0 (2 * Real.pi),
          Cmd.setFillStyle WasmApp.FOOD_COLOR, Cmd.fill ]
    ∧ (SimulationView.fillFood w x y).countP isStrokeCmd = 0
    ∧ (WasmApp.fillFood w x y).countP isStrokeCmd = 0 := by
  refine ⟨rfl, rfl, ?_, ?_⟩ <;>
    simp [SimulationView.fillFood, WasmApp.fillFood, List.countP_cons, isStrokeCmd]

/-- The wasm_app redraw cycle always clears the viewport first, whatever
the engine does afterwards. -/
theorem WasmApp_redraw_head {σ ε : Type} (sim : Sim σ ε) (s : σ) :
    (WasmApp.redraw sim s).1.head? = some Ev.clear := by
  simp [WasmApp.redraw, bindEv, emit]

/-- C4 (amended): in every successful frame cycle of the controller the
operations occur in the order reset, step, stats query, world query and
agent draws, world query and food draws, scheduling of the next frame, and
only then the generation queries and the stats presentation; in particular
the scheduling call happens before the stats presentation, not after it. -/
theorem claim_C4 {σ ε : Type} (sim : Sim σ ε) (s s1 : σ) (st : Option Stats)
    (w : World) (g gs : Nat)
    (hstep : sim.step s = Except.ok s1)
    (hstat : sim.prev_generation_statistics s1 = Except.ok st)
    (hw : sim.world s1 = Except.ok w)
    (hg : sim.generation s1 = Except.ok g)
    (hgs : sim.generation_steps s1 = Except.ok gs) :
    MainApp.redraw sim s
      = ([Ev.reset, Ev.step, Ev.queryStats, Ev.queryWorld]
          ++ w.animals.map Ev.drawAnimal
          ++ [Ev.queryWorld] ++ w.food.map Ev.drawFood
          ++ [Ev.schedule, Ev.queryGeneration, Ev.queryGenerationSteps,
              Ev.present (MainApp.formatText g gs st)],
         Except.ok s1)
    ∧ ∃ pre post : List Ev,
        (MainApp.redraw sim s).1 = pre ++ [Ev.schedule] ++ post
        ∧ Ev.present (MainApp.formatText g gs st) ∈ post
        ∧ ∀ txt, Ev.present txt ∉ pre := by
  have h := MainApp_redraw_ok sim s s1 st w g gs hstep hstat hw hg hgs
  refine ⟨h,
    [Ev.reset, Ev.step, Ev.queryStats, Ev.queryWorld]
      ++ w.animals.map Ev.drawAnimal ++ [Ev.queryWorld] ++ w.food.map Ev.drawFood,
    [Ev.queryGeneration, Ev.queryGenerationSteps,
     Ev.present (MainApp.formatText g gs st)],
    ?_, by simp, ?_⟩
  · rw [h]
    simp
  · intro txt
    simp [List.mem_append, List.mem_map]

/-- C4 witness: the amended order theorem applied to a concrete stub
engine whose calls all succeed. -/
theorem claim_C4_witness :
    okSim.step () = Except.ok ()
    ∧ okSim.prev_generation_statistics () = Except.ok none
    ∧ okSim.world () = Except.ok { animals := [], food := [] }
    ∧ okSim.generation () = Except.ok 0
    ∧ okSim.generation_steps () = Except.ok 0
    ∧ (MainApp.redraw okSim ()
        = ([Ev.reset, Ev.step, Ev.queryStats, Ev.queryWorld, Ev.queryWorld,
            Ev.schedule, Ev.queryGeneration, Ev.queryGenerationSteps,
            Ev.present (MainApp.formatText 0 0 none)],
           Except.ok ())
       ∧ ∃ pre post : List Ev,
           (MainApp.redraw okSim ()).1 = pre ++ [Ev.schedule] ++ post
           ∧ Ev.present (MainApp.formatText 0 0 none) ∈ post
           ∧ ∀ txt, Ev.present txt ∉ pre) :=
  ⟨rfl, rfl, rfl, rfl, rfl,
   claim_C4 okSim () () none { animals := [], food := [] } 0 0
     rfl rfl rfl rfl rfl⟩

/-- C4 counterexample: on a concrete engine whose calls all succeed, the
scheduling event of the controller cycle sits at index 5 of the trace while
the stats presentation sits at index 8, so the presentation does not happen
before the scheduling call, contrary to the claimed order. -/
theorem claim_C4_counterexample :
    (MainApp.redraw okSim ()).1.findIdx isScheduleEv = 5
    ∧ (MainApp.redraw okSim ()).1.findIdx isPresentEv = 8
    ∧ ¬ (MainApp.redraw okSim ()).1.findIdx isPresentEv
          < (MainApp.redraw okSim ()).1.findIdx isScheduleEv := by
  have h1 : (MainApp.redraw okSim ()).1.findIdx isScheduleEv = 5 := rfl
  have h2 : (MainApp.redraw okSim ()).1.findIdx isPresentEv = 8 := rfl
  refine ⟨h1, h2, ?_⟩
  rw [h1, h2]
  decide

/-- C5: in every successful frame cycle of either variant, step is invoked
exactly once, and the numbers of agent and food draw events equal the
lengths of the queried world's animal and food collections. -/
theorem claim_C5 {σ ε σ2 ε2 : Type} (sim : Sim σ ε) (s s1 : σ)
    (st : Option Stats) (w : World) (g gs : Nat)
    (sim2 : Sim σ2 ε2) (t t1 : σ2) (w2 : World)
    (hstep : sim.step s = Except.ok s1)
    (hstat : sim.prev_generation_statistics s1 = Except.ok st)
    (hw : sim.world s1 = Except.ok w)
    (hg : sim.generation s1 = Except.ok g)
    (hgs : sim.generation_steps s1 = Except.ok gs)
    (hstep2 : sim2.step t = Except.ok t1)
    (hw2 : sim2.world t1 = Except.ok w2) :
    ((MainApp.redraw sim s).1.countP isStepEv = 1
     ∧ (MainApp.redraw sim s).1.countP isDrawAnimalEv = w.animals.length
     ∧ (MainApp.redraw sim s).1.countP isDrawFoodEv = w.food.length)
    ∧ ((WasmApp.redraw sim2 t).1.countP isStepEv = 1
     ∧ (WasmApp.redraw sim2 t).1.countP isDrawAnimalEv = w2.animals.length
     ∧ (WasmApp.redraw sim2 t).1.countP isDrawFoodEv = w2.food.length) := by
  have h1 := MainApp_redraw_ok sim s s1 st w g gs hstep hstat hw hg hgs
  have h2 := WasmApp_redraw_ok sim2 t t1 w2 hstep2 hw2
  rw [h1, h2]
  refine ⟨⟨?_, ?_, ?_⟩, ⟨?_, ?_, ?_⟩⟩ <;>
    simp [List.countP_append, List.countP_map, List.countP_cons,
      isStepEv, isDrawAnimalEv, isDrawFoodEv, Function.comp_def]

/-- C5 witness: the invariant applied to a concrete engine holding one
animal and two food items. -/
theorem claim_C5_witness :
    demoSim.step () = Except.ok ()
    ∧ demoSim.world ()
        = Except.ok { animals := [demoAnimal], food := [demoFood, demoFood] }
    ∧ (((MainApp.redraw demoSim ()).1.countP isStepEv = 1
        ∧ (MainApp.redraw demoSim ()).1.countP isDrawAnimalEv = 1
        ∧ (MainApp.redraw demoSim ()).1.countP isDrawFoodEv = 2)
       ∧ ((WasmApp.redraw demoSim ()).1.countP isStepEv = 1
        ∧ (WasmApp.redraw demoSim ()).1.countP isDrawAnimalEv = 1
        ∧ (WasmApp.redraw demoSim ()).1.countP isDrawFoodEv = 2)) :=
  ⟨rfl, rfl,
   claim_C5 demoSim () () none
     { animals := [demoAnimal], food := [demoFood, demoFood] } 3 40
     demoSim () () { animals := [demoAnimal], food := [demoFood, demoFood] }
     rfl rfl rfl rfl rfl rfl rfl⟩

/-- C6 (amended): when a frame cycle of the controller fails, no stats are
presented after the point of failure, and the next frame was scheduled if
and only if the failure came after the scheduling call — that is, exactly
when the step call, the stats query and the world queries all succeeded
and the failure lay in the generation counters queried afterwards; in the
wasm_app variant every engine call precedes the scheduling call, so any
failure prevents rescheduling. -/
theorem claim_C6 {σ ε σ2 ε2 : Type} (sim : Sim σ ε) (s : σ) (e : ε)
    (sim2 : Sim σ2 ε2) (t : σ2) (e2 : ε2)
    (h1 : (MainApp.redraw sim s).2 = Except.error e)
    (h2 : (WasmApp.redraw sim2 t).2 = Except.error e2) :
    (∀ txt, Ev.present txt ∉ (MainApp.redraw sim s).1)
    ∧ (Ev.schedule ∈ (MainApp.redraw sim s).1
        ↔ ∃ s1, sim.step s = Except.ok s1
            ∧ (∃ st, sim.prev_generation_statistics s1 = Except.ok st)
            ∧ (∃ w, sim.world s1 = Except.ok w))
    ∧ Ev.schedule ∉ (WasmApp.redraw sim2 t).1 := by
  have wasmPart : Ev.schedule ∉ (WasmApp.redraw sim2 t).1 := by
    cases hstep2 : sim2.step t with
    | error e0 =>
      have htr : WasmApp.redraw sim2 t = ([Ev.clear, Ev.step], Except.error e0) := by
        simp [WasmApp.redraw, hstep2, bindEv, emit, call]
      rw [htr]
      simp
    | ok t1 =>
      cases hw2 : sim2.world t1 with
      | error e0 =>
        have htr : WasmApp.redraw sim2 t
            = ([Ev.clear, Ev.step, Ev.queryWorld], Except.error e0) := by
          simp [WasmApp.redraw, WasmApp.drawAnimalsEv, WasmApp.drawFoodEv,
            hstep2, hw2, bindEv, emit, call]
        rw [htr]
        simp
      | ok w2 =>
        have hok := WasmApp_redraw_ok sim2 t t1 w2 hstep2 hw2
        rw [hok] at h2
        simp at h2
  have main : (∀ txt, Ev.present txt ∉ (MainApp.redraw sim s).1)
      ∧ (Ev.schedule ∈ (MainApp.redraw sim s).1
          ↔ ∃ s1, sim.step s = Except.ok s1
              ∧ (∃ st, sim.prev_generation_statistics s1 = Except.ok st)
              ∧ (∃ w, sim.world s1 = Except.ok w)) := by
    cases hstep : sim.step s with
    | error e0 =>
      have htr : MainApp.redraw sim s = ([Ev.reset, Ev.step], Except.error e0) := by
        simp [MainApp.redraw, stepLoop_one, hstep, bindEv, emit, call]
      rw [htr]
      constructor
      · intro txt; simp
      · simp [hstep]
    | ok s1 =>
      cases hstat : sim.prev_generation_statistics s1 with
      | error e0 =>
        have htr : MainApp.redraw sim s
            = ([Ev.reset, Ev.step, Ev.queryStats], Except.error e0) := by
          simp [MainApp.redraw, stepLoop_one, hstep, hstat, bindEv, emit, call]
        rw [htr]
        constructor
        · intro txt; simp
        · simp [hstep, hstat]
      | ok st =>
        cases hw : sim.world s1 with
        | error e0 =>
          have htr : MainApp.redraw sim s
              = ([Ev.reset, Ev.step, Ev.queryStats, Ev.queryWorld],
                 Except.error e0) := by
            simp [MainApp.redraw, stepLoop_one, hstep, hstat, hw,
              bindEv, emit, call]
          rw [htr]
          constructor
          · intro txt; simp
          · simp [hstep, hstat, hw]
        | ok w =>
          cases hg : sim.generation s1 with
          | error e0 =>
            have htr : MainApp.redraw sim s
                = ([Ev.reset, Ev.step, Ev.queryStats, Ev.queryWorld]
                    ++ w.animals.map Ev.drawAnimal ++ [Ev.queryWorld]
                    ++ w.food.map Ev.drawFood
                    ++ [Ev.schedule, Ev.queryGeneration],
                   Except.error e0) := by
              simp [MainApp.redraw, stepLoop_one, hstep, hstat, hw, hg,
                bindEv, emit, call]
            rw [htr]
            constructor
            · intro txt; simp [List.mem_append, List.mem_map]
            · simp [hstep, hstat, hw]
          | ok g =>
            cases hgs : sim.generation_steps s1 with
            | error e0 =>
              have htr : MainApp.redraw sim s
                  = ([Ev.reset, Ev.step, Ev.queryStats, Ev.queryWorld]
                      ++ w.animals.map Ev.drawAnimal ++ [Ev.queryWorld]
                      ++ w.food.map Ev.drawFood
                      ++ [Ev.schedule, Ev.queryGeneration,
                          Ev.queryGenerationSteps],
                     Except.error e0) := by
                simp [MainApp.redraw, stepLoop_one, hstep, hstat, hw, hg, hgs,
                  bindEv, emit, call]
              rw [htr]
              constructor
              · intro txt; simp [List.mem_append, List.mem_map]
              · simp [hstep, hstat, hw]
            | ok gs =>
              have hok := MainApp_redraw_ok sim s s1 st w g gs
                hstep hstat hw hg hgs
              rw [hok] at h1
              simp at h1
  exact ⟨main.1, main.2, wasmPart⟩

/-- C6 witness: the amended failure theorem applied to a concrete engine
whose step call throws, in both loop variants. -/
theorem claim_C6_witness :
    (MainApp.redraw stepFailSim ()).2 = Except.error ("engine failure")
    ∧ (WasmApp.redraw stepFailSim ()).2 = Except.error ("engine failure")
    ∧ ((∀ txt, Ev.present txt ∉ (MainApp.redraw stepFailSim ()).1)
       ∧ (Ev.schedule ∈ (MainApp.redraw stepFailSim ()).1
           ↔ ∃ s1, stepFailSim.step () = Except.ok s1
               ∧ (∃ st, stepFailSim.prev_generation_statistics s1 = Except.ok st)
               ∧ (∃ w, stepFailSim.world s1 = Except.ok w))
       ∧ Ev.schedule ∉ (WasmApp.redraw stepFailSim ()).1) :=
  ⟨rfl, rfl,
   claim_C6 stepFailSim () ("engine failure") stepFailSim () ("engine failure")
     rfl rfl⟩

/-- C6 counterexample: on a concrete engine whose generation accessor
throws while every other call succeeds, the controller cycle fails and yet
the scheduling event is in its trace — an engine accessor threw during the
cycle but the scheduling call for the next frame was reached. -/
theorem claim_C6_counterexample :
    (MainApp.redraw genFailSim ()).2 = Except.error ("engine failure")
    ∧ Ev.schedule ∈ (MainApp.redraw genFailSim ()).1 := by
  constructor
  · rfl
  · have htr : (MainApp.redraw genFailSim ()).1
        = [Ev.reset, Ev.step, Ev.queryStats, Ev.queryWorld, Ev.queryWorld,
           Ev.schedule, Ev.queryGeneration] := rfl
    rw [htr]
    simp

/-- C10: at wasm_app startup the agent and food collections of the initial
world are each drawn exactly once, after a world query but with no step
call and no clearing beforehand, and only then does the first frame cycle
run, which begins by clearing the viewport. -/
theorem claim_C10 {σ ε : Type} (sim : Sim σ ε) (s0 : σ) (w0 : World)
    (hw : sim.world s0 = Except.ok w0) :
    (WasmApp.startup sim s0).1
      = ([Ev.queryWorld] ++ w0.animals.map Ev.drawAnimal
          ++ [Ev.queryWorld] ++ w0.food.map Ev.drawFood)
        ++ (WasmApp.redraw sim s0).1
    ∧ ([Ev.queryWorld] ++ w0.animals.map Ev.drawAnimal
        ++ [Ev.queryWorld] ++ w0.food.map Ev.drawFood).countP isStepEv = 0
    ∧ ([Ev.queryWorld] ++ w0.animals.map Ev.drawAnimal
        ++ [Ev.queryWorld] ++ w0.food.map Ev.drawFood).countP isClearEv = 0
    ∧ ([Ev.queryWorld] ++ w0.animals.map Ev.drawAnimal
        ++ [Ev.queryWorld] ++ w0.food.map Ev.drawFood).countP isDrawAnimalEv
        = w0.animals.length
    ∧ ([Ev.queryWorld] ++ w0.animals.map Ev.drawAnimal
        ++ [Ev.queryWorld] ++ w0.food.map Ev.drawFood).countP isDrawFoodEv
        = w0.food.length
    ∧ (WasmApp.redraw sim s0).1.head? = some Ev.clear := by
  refine ⟨?_, ?_, ?_, ?_, ?_, WasmApp_redraw_head sim s0⟩
  · simp [WasmApp.startup, WasmApp.drawAnimalsEv, WasmApp.drawFoodEv,
      hw, bindEv, emit, call]
  all_goals
    simp [List.countP_append, List.countP_map, List.countP_cons,
      isStepEv, isClearEv, isDrawAnimalEv, isDrawFoodEv, Function.comp_def]

/-- C10 witness: the startup theorem applied to a concrete engine holding
one animal and two food items. -/
theorem claim_C10_witness :
    demoSim.world ()
        = Except.ok { animals := [demoAnimal], food := [demoFood, demoFood] }
    ∧ ((WasmApp.startup demoSim ()).1
        = [Ev.queryWorld, Ev.drawAnimal demoAnimal, Ev.queryWorld,
           Ev.drawFood demoFood, Ev.drawFood demoFood]
          ++ (WasmApp.redraw demoSim ()).1
       ∧ [Ev.queryWorld, Ev.drawAnimal demoAnimal, Ev.queryWorld,
          Ev.drawFood demoFood, Ev.drawFood demoFood].countP isStepEv = 0
       ∧ [Ev.queryWorld, Ev.drawAnimal demoAnimal, Ev.queryWorld,
          Ev.drawFood demoFood, Ev.drawFood demoFood].countP isClearEv = 0
       ∧ [Ev.queryWorld, Ev.drawAnimal demoAnimal, Ev.queryWorld,
          Ev.drawFood demoFood, Ev.drawFood demoFood].countP isDrawAnimalEv = 1
       ∧ [Ev.queryWorld, Ev.drawAnimal demoAnimal, Ev.queryWorld,
          Ev.drawFood demoFood, Ev.drawFood demoFood].countP isDrawFoodEv = 2
       ∧ (WasmApp.redraw demoSim ()).1.head? = some Ev.clear) :=
  ⟨rfl,
   claim_C10 demoSim ()
     { animals := [demoAnimal], food := [demoFood, demoFood] } rfl⟩

end VroomVroom
